import Mathlib

/-!
Verification of the e-commerce backend (`src/backend/main.py`) against its
natural-language specification.

The backend is a FastAPI service keeping an in-memory store `DB` with a cart
(a Python dict `item_id -> quantity`), an append-only order list, cumulative
store statistics, an optional current discount code, and the milestone
threshold `nth_order_value = 3`.  We embed that state shallowly:

* Python dicts are insertion-ordered association lists (`dictGet`/`dictSet`
  mirror `dict.get(k, 0)` and `d[k] = v`).
* Monetary values are embedded as exact rationals (`ℚ`); `round(x, 2)` is
  Python's banker's rounding (round-half-to-even) applied to the exact
  decimal value, embedded as `round2`.
* The random suffix produced by `uuid.uuid4()` in the milestone branch is
  made explicit: each checkout call carries the suffix `gen` the generator
  would return, so `checkout` is a deterministic function of state and
  oracle input.
* `HTTPException` outcomes become `Except ApiError`; an endpoint that raises
  before mutating leaves the state unchanged (`runOp`).
-/

namespace ProEcommerce

/-- One catalog entry of the `PRODUCTS` dictionary: `{"name": ..., "price": ...}`. -/
structure Product where
  name : String
  price : ℚ
deriving DecidableEq

/-- The `PRODUCTS` in-memory catalog from `main.py`. -/
def PRODUCTS : List (String × Product) :=
  [("item_001", ⟨"Quantum T-Shirt", 1999/100⟩),
   ("item_002", ⟨"Flux Capacitor Mug", 1549/100⟩),
   ("item_003", ⟨"Singularity Snapback", 2499/100⟩),
   ("item_004", ⟨"Code Weaver Hoodie", 4999/100⟩)]

/-- `PRODUCTS[item_id]["price"]` as a partial lookup (`none` when the id is
absent from the catalog, where Python would raise `KeyError`). -/
def productPrice? (item_id : String) : Option ℚ :=
  (PRODUCTS.find? (fun p => p.1 == item_id)).map (fun p => p.2.price)

/-- `item.item_id in PRODUCTS` from `add_to_cart`. -/
def knownItem (item_id : String) : Bool :=
  (productPrice? item_id).isSome

/-- The order record built by `checkout` (`order = {...}` in `main.py`). -/
structure Order where
  order_id : ℕ
  items : List (String × ℤ)
  subtotal : ℚ
  discount_applied : Bool
  discount_amount : ℚ
  total : ℚ
deriving DecidableEq

/-- `DB["store_stats"]`. -/
structure StoreStats where
  items_purchased_count : ℤ
  total_purchase_amount : ℚ
  discount_codes_list : List String
  total_discount_amount : ℚ
deriving DecidableEq

/-- The whole in-memory store `DB`. -/
structure DBState where
  cart : List (String × ℤ)
  orders : List Order
  store_stats : StoreStats
  current_discount_code : Option String
  nth_order_value : ℕ
deriving DecidableEq

/-- The `HTTPException`s the two mutating endpoints can raise:
404 "Item not found" and 400 "Cart is empty". -/
inductive ApiError where
  | notFound
  | emptyCart
deriving DecidableEq

/-- The initial contents of `DB` in `main.py`. -/
def initDB : DBState :=
  { cart := []
    orders := []
    store_stats :=
      { items_purchased_count := 0
        total_purchase_amount := 0
        discount_codes_list := []
        total_discount_amount := 0 }
    current_discount_code := none
    nth_order_value := 3 }

/-- `DB["cart"].get(item_id)` on the insertion-ordered dict: the value at
the (unique) matching key, `none` when absent. -/
def dictGet : List (String × ℤ) → String → Option ℤ
  | [], _ => none
  | (k, v) :: rest, item_id => if k == item_id then some v else dictGet rest item_id

/-- `DB["cart"][item_id] = v`: replace the value of an existing key in place,
otherwise append the new key at the end (Python dict insertion order). -/
def dictSet (cart : List (String × ℤ)) (item_id : String) (v : ℤ) :
    List (String × ℤ) :=
  match cart with
  | [] => [(item_id, v)]
  | (k, w) :: rest =>
      if k == item_id then (item_id, v) :: rest
      else (k, w) :: dictSet rest item_id v

/-- Python's `round` to the nearest integer: banker's rounding, ties go to
the even neighbour.  Written on the reduced numerator/denominator so that it
evaluates by kernel reduction: `f` is the floor of `q`, `r` its nonnegative
remainder, and `2*r` against `d` compares the fractional part with `1/2`. -/
def roundHalfEven (q : ℚ) : ℤ :=
  let d : ℤ := (q.den : ℤ)
  let f : ℤ := q.num.ediv d
  let r : ℤ := q.num.emod d
  if 2 * r < d then f
  else if d < 2 * r then f + 1
  else if f % 2 = 0 then f else f + 1

/-- Python's `round(x, 2)` idealized to the exact decimal value: the
nearest multiple of 0.01, ties to even.  The program computes on binary
doubles, which agree with this idealization except within half an ulp of a
decimal tie; the cent-exact double behaviour is modelled separately by
`fl`, `fadd`/`fsub`/`fmul` and `pyRound2` below and is used for the claims
whose truth hangs on such tie points. -/
def round2 (q : ℚ) : ℚ :=
  (roundHalfEven (q * 100) : ℚ) / 100

/-- Fuel-carrying floor-log₂ helper: `natLog2Aux fuel n` halves `n` until it
drops below 2, counting the steps; `fuel ≥ n` suffices. -/
def natLog2Aux : ℕ → ℕ → ℕ
  | 0, _ => 0
  | fuel + 1, n => if n < 2 then 0 else natLog2Aux fuel (n / 2) + 1

/-- `⌊log₂ n⌋` for `n ≥ 1` (0 for `n = 0`). -/
def natLog2 (n : ℕ) : ℕ := natLog2Aux n n

/-- Round-half-even of the fraction `n / d` (for `d > 0`) as an integer:
`f` is the floor, `r` the nonnegative remainder, and `2*r` against `d`
compares the fractional part with one half. -/
def rheInt (n d : ℤ) : ℤ :=
  let f : ℤ := n.ediv d
  let r : ℤ := n.emod d
  if 2 * r < d then f
  else if d < 2 * r then f + 1
  else if f % 2 = 0 then f else f + 1

/-- `a / b < 2 ^ k` for positive integers `a`, `b`, decided on integers:
exactly one of the two powers is ≠ 1. -/
def ltPow2 (a b : ℤ) (k : ℤ) : Bool :=
  a * 2 ^ (-k).toNat < b * 2 ^ k.toNat

/-- `2 ^ k ≤ a / b` for positive integers `a`, `b`, decided on integers. -/
def gePow2 (a b : ℤ) (k : ℤ) : Bool :=
  b * 2 ^ k.toNat ≤ a * 2 ^ (-k).toNat

/-- `⌊log₂ (a / b)⌋` for positive integers `a`, `b`: the quotient of the
truncated logs is off by at most one, so two comparisons correct it. -/
def ilog2nd (a b : ℤ) : ℤ :=
  let e0 : ℤ := (natLog2 a.toNat : ℤ) - (natLog2 b.toNat : ℤ)
  let e1 : ℤ := if ltPow2 a b e0 then e0 - 1 else e0
  if gePow2 a b (e1 + 1) then e1 + 1 else e1

/-- IEEE-754 binary64 rounding (round-to-nearest, ties-to-even) of the
rational `n / d`, with the resulting double represented by its exact
rational value: the 53-bit significand `m` satisfies `2^52 ≤ m < 2^53`
(except for zero) and the result is `± m · 2^(e-52)` where
`2^e ≤ |n/d| < 2^(e+1)`.  Exponent overflow and subnormals are not
modelled; they are out of range for this program's catalog arithmetic.
All intermediate arithmetic is on integers. -/
def flND (n d : ℤ) : ℚ :=
  if n = 0 then 0
  else
    let neg : Bool := (decide (n < 0)) != (decide (d < 0))
    let a : ℤ := (n.natAbs : ℤ)
    let b : ℤ := (d.natAbs : ℤ)
    let e : ℤ := ilog2nd a b
    let m : ℤ := rheInt (a * 2 ^ (52 - e).toNat) (b * 2 ^ (e - 52).toNat)
    let s : ℤ := if neg then -1 else 1
    mkRat (s * m * 2 ^ (e - 52).toNat) (2 ^ (52 - e).toNat)

/-- The double nearest to the rational `q` (so `fl (1999/100)` is the value
of the Python literal `19.99`). -/
def fl (q : ℚ) : ℚ := flND q.num (q.den : ℤ)

/-- IEEE-754 binary64 addition of two doubles given by their exact values:
the exact sum, rounded to the nearest double. -/
def fadd (x y : ℚ) : ℚ :=
  flND (x.num * (y.den : ℤ) + y.num * (x.den : ℤ)) ((x.den : ℤ) * (y.den : ℤ))

/-- IEEE-754 binary64 subtraction. -/
def fsub (x y : ℚ) : ℚ :=
  flND (x.num * (y.den : ℤ) - y.num * (x.den : ℤ)) ((x.den : ℤ) * (y.den : ℤ))

/-- IEEE-754 binary64 multiplication. -/
def fmul (x y : ℚ) : ℚ :=
  flND (x.num * y.num) ((x.den : ℤ) * (y.den : ℤ))

/-- CPython's `round(x, 2)` on a double `x`: the exact value of `x` is
correctly rounded to two decimal digits (ties to even, as in David Gay's
dtoa used by CPython), and the resulting decimal is converted back to the
nearest double. -/
def pyRound2 (x : ℚ) : ℚ := flND (rheInt (x.num * 100) (x.den : ℤ)) 100

/-- `POST /cart/add` (`add_to_cart` in `main.py`): reject unknown items with
404, otherwise add the submitted quantity to the stored one.  The endpoint
performs no check on the sign of the quantity. -/
def add_to_cart (s : DBState) (item_id : String) (quantity : ℤ) :
    Except ApiError DBState :=
  if knownItem item_id then
    Except.ok { s with
      cart := dictSet s.cart item_id ((dictGet s.cart item_id).getD 0 + quantity) }
  else
    Except.error ApiError.notFound

/-- The guard `payload.discount_code and payload.discount_code ==
DB["current_discount_code"]`: the submitted code must be present, truthy
(non-empty), and equal to the current code. -/
def codeMatches (s : DBState) (code : Option String) : Bool :=
  match code with
  | none => false
  | some c => !(c == "") && (s.current_discount_code == some c)

/-- `subtotal = sum(PRODUCTS[item_id]["price"] * quantity ...)` over the cart.
Unknown ids contribute 0 here; in Python they would raise `KeyError`, but
every reachable cart only holds catalog items. -/
def subtotalOf (cart : List (String × ℤ)) : ℚ :=
  (cart.map (fun p => (productPrice? p.1).getD 0 * (p.2 : ℚ))).sum

/-- `items_in_order = sum(DB["cart"].values())`. -/
def itemsInOrder (cart : List (String × ℤ)) : ℤ :=
  (cart.map (fun p => p.2)).sum

/-- The local `discount_amount` right after the guard: `subtotal * 0.10` when
the code matches, else the initial `0.0`.  No rounding happens here. -/
def discountAmountOf (s : DBState) (code : Option String) : ℚ :=
  if codeMatches s code then subtotalOf s.cart * (1/10) else 0

/-- The local `final_total`: `subtotal - discount_amount` when the code
matches, else the initial `subtotal` (equal to the subtraction either way
since the discount is 0 in the second case). -/
def finalTotalOf (s : DBState) (code : Option String) : ℚ :=
  subtotalOf s.cart - discountAmountOf s code

/-- `DB["current_discount_code"]` right after the discount guard: redemption
sets it to `None`, any other outcome leaves it alone. -/
def postDiscountCurrent (s : DBState) (code : Option String) : Option String :=
  if codeMatches s code then none else s.current_discount_code

/-- `f"SAVE10-{str(uuid.uuid4())[:4].upper()}"` with the random part `gen`
made an explicit oracle input. -/
def newCode (gen : String) : String :=
  "SAVE10-" ++ gen

/-- The `order` dict built by `checkout`: rounding to 2 decimals is applied
here, at order-construction time, to `subtotal`, `discount_amount` and
`final_total`. -/
def checkoutOrder (s : DBState) (code : Option String) : Order :=
  { order_id := s.orders.length + 1
    items := s.cart
    subtotal := round2 (subtotalOf s.cart)
    discount_applied := codeMatches s code
    discount_amount := round2 (discountAmountOf s code)
    total := round2 (finalTotalOf s code) }

/-- The `# Update stats` block: the *unrounded* locals `final_total` and
`discount_amount` are accumulated, not the rounded order fields. -/
def checkoutStats (s : DBState) (code : Option String) : StoreStats :=
  { s.store_stats with
    items_purchased_count :=
      s.store_stats.items_purchased_count + itemsInOrder s.cart
    total_purchase_amount :=
      s.store_stats.total_purchase_amount + finalTotalOf s code
    total_discount_amount :=
      if codeMatches s code then
        s.store_stats.total_discount_amount + discountAmountOf s code
      else s.store_stats.total_discount_amount }

/-- The state after a successful `checkout`: order appended, stats updated,
cart cleared, then the milestone check `len(DB["orders"]) % nth == 0`
possibly mints `newCode gen`, sets it current and appends it to the list. -/
def checkoutPost (s : DBState) (code : Option String) (gen : String) : DBState :=
  if (s.orders ++ [checkoutOrder s code]).length % s.nth_order_value = 0 then
    { cart := []
      orders := s.orders ++ [checkoutOrder s code]
      store_stats :=
        { checkoutStats s code with
          discount_codes_list :=
            (checkoutStats s code).discount_codes_list ++ [newCode gen] }
      current_discount_code := some (newCode gen)
      nth_order_value := s.nth_order_value }
  else
    { cart := []
      orders := s.orders ++ [checkoutOrder s code]
      store_stats := checkoutStats s code
      current_discount_code := postDiscountCurrent s code
      nth_order_value := s.nth_order_value }

/-- `POST /checkout`: 400 on an empty cart (`if not DB["cart"]`), before any
mutation; otherwise the order is built and the state is updated as in
`checkoutPost`. -/
def checkout (s : DBState) (code : Option String) (gen : String) :
    Except ApiError (DBState × Order) :=
  if s.cart.isEmpty then Except.error ApiError.emptyCart
  else Except.ok (checkoutPost s code gen, checkoutOrder s code)

/-- Bit-exact float semantics of the subtotal loop
`sum(PRODUCTS[item_id]["price"] * quantity ...)`: the catalog's decimal
price stands for the Python float literal, so it is converted with `fl`;
each product and each running addition of `sum` (which starts at `0.0`)
rounds to the nearest double. -/
def fsubtotalOf (cart : List (String × ℤ)) : ℚ :=
  (cart.map (fun p => fmul (fl ((productPrice? p.1).getD 0)) (p.2 : ℚ))).foldl fadd 0

/-- Bit-exact float semantics of the local `discount_amount`:
`subtotal * 0.10` in doubles (the literal `0.10` is `fl (1/10)`), `0.0`
when the code does not match. -/
def fdiscountAmountOf (s : DBState) (code : Option String) : ℚ :=
  if codeMatches s code then fmul (fsubtotalOf s.cart) (fl (1/10)) else 0

/-- Bit-exact float semantics of the local `final_total`: the double
subtraction `subtotal - discount_amount` on a redeeming checkout, plain
`subtotal` otherwise. -/
def ffinalTotalOf (s : DBState) (code : Option String) : ℚ :=
  if codeMatches s code then fsub (fsubtotalOf s.cart) (fdiscountAmountOf s code)
  else fsubtotalOf s.cart

/-- The `order` dict built by `checkout`, with the monetary fields given
their bit-exact binary64 values: `round(..., 2)` on a double is
`pyRound2`. -/
def fcheckoutOrder (s : DBState) (code : Option String) : Order :=
  { order_id := s.orders.length + 1
    items := s.cart
    subtotal := pyRound2 (fsubtotalOf s.cart)
    discount_applied := codeMatches s code
    discount_amount := pyRound2 (fdiscountAmountOf s code)
    total := pyRound2 (ffinalTotalOf s code) }

/-- The order produced by `POST /checkout` under bit-exact float
semantics: 400 on an empty cart, otherwise the order record of
`fcheckoutOrder`. -/
def fcheckout (s : DBState) (code : Option String) : Except ApiError Order :=
  if s.cart.isEmpty then Except.error ApiError.emptyCart
  else Except.ok (fcheckoutOrder s code)

/-- One client request against the mutating endpoints, with the random
suffix of a potential milestone code made explicit. -/
inductive Op where
  | add (item_id : String) (quantity : ℤ)
  | checkout (code : Option String) (gen : String)
deriving DecidableEq

/-- Run one request: an endpoint that raises leaves `DB` unchanged. -/
def runOp (s : DBState) : Op → DBState
  | Op.add item_id quantity =>
      match add_to_cart s item_id quantity with
      | Except.ok s1 => s1
      | Except.error _ => s
  | Op.checkout code gen =>
      match checkout s code gen with
      | Except.ok (s1, _) => s1
      | Except.error _ => s

/-- Run a sequence of requests. -/
def runOps (s : DBState) (ops : List Op) : DBState :=
  ops.foldl runOp s

/-- The number of checkouts in a request sequence that succeed (return an
order rather than an error). -/
def succCheckouts : DBState → List Op → ℕ
  | _, [] => 0
  | s, op :: rest =>
      (match op with
       | Op.checkout code gen =>
           match checkout s code gen with
           | Except.ok _ => 1
           | Except.error _ => 0
       | Op.add _ _ => 0) + succCheckouts (runOp s op) rest

/-- `opApplies s op c`: request `op`, served in state `s`, is a checkout
that submits exactly the string `c` and produces an order with the discount
applied. -/
def opApplies (s : DBState) (op : Op) (c : String) : Bool :=
  match op with
  | Op.checkout (some c1) gen =>
      (c1 == c) &&
      (match checkout s (some c1) gen with
       | Except.ok (_, o) => o.discount_applied
       | Except.error _ => false)
  | _ => false

/-- Some request in the sequence applies a discount with submitted string
`c` (evaluated along the run). -/
def appliesWith (c : String) : DBState → List Op → Bool
  | _, [] => false
  | s, op :: rest => opApplies s op c || appliesWith c (runOp s op) rest

/-- `cannotIssue c op`: request `op` can never mint the code string `c`
(its oracle suffix does not spell `c`). -/
def cannotIssue (c : String) : Op → Bool
  | Op.checkout _ gen => !(newCode gen == c)
  | Op.add _ _ => true

/-- Run a sequence of plain add-to-cart requests. -/
def runAdds (s : DBState) (adds : List (String × ℤ)) : DBState :=
  runOps s (adds.map (fun a => Op.add a.1 a.2))

/-- The code/list invariant of claim C10: whenever a discount code is
current, it is the most recently appended element of
`discount_codes_list`. -/
def codesInv (s : DBState) : Prop :=
  ∀ c, s.current_discount_code = some c →
    s.store_stats.discount_codes_list.getLast? = some c

/-- A store holding one unit of `item_001` in the cart while the issued code
"SAVE10-AB12" is active (the situation of the spec's mismatched-code
scenario and of `test_checkout_with_invalid_discount_code`). -/
def demoState : DBState :=
  { cart := [("item_001", 1)]
    orders := []
    store_stats :=
      { items_purchased_count := 0
        total_purchase_amount := 0
        discount_codes_list := ["SAVE10-AB12"]
        total_discount_amount := 0 }
    current_discount_code := some "SAVE10-AB12"
    nth_order_value := 3 }

/-- Like `demoState` but with five units of `item_001` in the cart: the
float subtotal is `19.99 * 5 = 99.94999999999999`, whose 10% discount
9.994999… rounds down to 9.99 while the once-rounded subtotal 99.95 minus
that rounded discount re-rounds to 89.96 — a cent away from the stored
total 89.95. -/
def c1State : DBState :=
  { demoState with cart := [("item_001", 5)] }

/-- Three one-item checkouts from the initial store: the third one is the
milestone that issues "SAVE10-AB12". -/
def issueOps : List Op :=
  [Op.add "item_001" 1, Op.checkout none "AB12",
   Op.add "item_001" 1, Op.checkout none "AB12",
   Op.add "item_001" 1, Op.checkout none "AB12"]

/-- The order produced by the nth of those checkouts. -/
def plainOrder (n : ℕ) : Order :=
  { order_id := n
    items := [("item_001", 1)]
    subtotal := 1999/100
    discount_applied := false
    discount_amount := 0
    total := 1999/100 }

/-- The store after the first request of `issueOps`. -/
def issued1 : DBState :=
  { initDB with cart := [("item_001", 1)] }

/-- The store after the second request of `issueOps` (first checkout). -/
def issued2 : DBState :=
  { cart := []
    orders := [plainOrder 1]
    store_stats :=
      { items_purchased_count := 1
        total_purchase_amount := 1999/100
        discount_codes_list := []
        total_discount_amount := 0 }
    current_discount_code := none
    nth_order_value := 3 }

/-- The store after the third request of `issueOps`. -/
def issued3 : DBState :=
  { issued2 with cart := [("item_001", 1)] }

/-- The store after the fourth request of `issueOps` (second checkout). -/
def issued4 : DBState :=
  { cart := []
    orders := [plainOrder 1, plainOrder 2]
    store_stats :=
      { items_purchased_count := 2
        total_purchase_amount := 3998/100
        discount_codes_list := []
        total_discount_amount := 0 }
    current_discount_code := none
    nth_order_value := 3 }

/-- The store after the fifth request of `issueOps`. -/
def issued5 : DBState :=
  { issued4 with cart := [("item_001", 1)] }

/-- The store after all of `issueOps`: the third checkout hits the milestone
`3 % 3 == 0` and issues "SAVE10-AB12". -/
def issued6 : DBState :=
  { cart := []
    orders := [plainOrder 1, plainOrder 2, plainOrder 3]
    store_stats :=
      { items_purchased_count := 3
        total_purchase_amount := 5997/100
        discount_codes_list := ["SAVE10-AB12"]
        total_discount_amount := 0 }
    current_discount_code := some "SAVE10-AB12"
    nth_order_value := 3 }

set_option maxRecDepth 8000

/-! ## Basic lemmas about the embedded operations -/

theorem checkout_empty {s : DBState} (code : Option String) (gen : String)
    (h : s.cart = []) : checkout s code gen = Except.error ApiError.emptyCart := by
  unfold checkout
  rw [if_pos (by simp [List.isEmpty_iff, h])]

theorem checkout_nonempty {s : DBState} (code : Option String) (gen : String)
    (h : s.cart ≠ []) :
    checkout s code gen = Except.ok (checkoutPost s code gen, checkoutOrder s code) := by
  unfold checkout
  rw [if_neg (by simp [List.isEmpty_iff, h])]

theorem checkout_ok_iff {s : DBState} {code : Option String} {gen : String}
    {s1 : DBState} {o : Order} :
    checkout s code gen = Except.ok (s1, o) ↔
      s.cart ≠ [] ∧ s1 = checkoutPost s code gen ∧ o = checkoutOrder s code := by
  by_cases h : s.cart = []
  · rw [checkout_empty code gen h]
    simp [h]
  · rw [checkout_nonempty code gen h]
    constructor
    · intro hh
      injection hh with hpair
      injection hpair with h1 h2
      exact ⟨h, h1.symm, h2.symm⟩
    · rintro ⟨-, rfl, rfl⟩
      rfl

theorem codeMatches_some_iff {s : DBState} {c : String} :
    codeMatches s (some c) = true ↔ c ≠ "" ∧ s.current_discount_code = some c := by
  unfold codeMatches
  rw [Bool.and_eq_true, Bool.not_eq_true', beq_eq_false_iff_ne, beq_iff_eq]

theorem codeMatches_false_of_mismatch {s : DBState} {code : Option String}
    (h : code = none ∨ code ≠ s.current_discount_code) : codeMatches s code = false := by
  cases code with
  | none => rfl
  | some c =>
    rcases h with h | h
    · simp at h
    · by_contra hb
      rw [Bool.not_eq_false] at hb
      obtain ⟨-, h2⟩ := codeMatches_some_iff.mp hb
      exact h h2.symm

theorem discount_applied_eq (s : DBState) (code : Option String) :
    (checkoutOrder s code).discount_applied = codeMatches s code := rfl

theorem checkoutStats_items (s : DBState) (code : Option String) :
    (checkoutStats s code).items_purchased_count =
      s.store_stats.items_purchased_count + itemsInOrder s.cart := rfl

theorem checkoutStats_purchase (s : DBState) (code : Option String) :
    (checkoutStats s code).total_purchase_amount =
      s.store_stats.total_purchase_amount + finalTotalOf s code := rfl

theorem checkoutStats_codes (s : DBState) (code : Option String) :
    (checkoutStats s code).discount_codes_list =
      s.store_stats.discount_codes_list := rfl

theorem checkoutStats_discount (s : DBState) (code : Option String) :
    (checkoutStats s code).total_discount_amount =
      if codeMatches s code then
        s.store_stats.total_discount_amount + discountAmountOf s code
      else s.store_stats.total_discount_amount := rfl

theorem checkoutPost_of_milestone {s : DBState} {code : Option String} {gen : String}
    (h : (s.orders.length + 1) % s.nth_order_value = 0) :
    checkoutPost s code gen =
      { cart := []
        orders := s.orders ++ [checkoutOrder s code]
        store_stats :=
          { checkoutStats s code with
            discount_codes_list :=
              (checkoutStats s code).discount_codes_list ++ [newCode gen] }
        current_discount_code := some (newCode gen)
        nth_order_value := s.nth_order_value } := by
  unfold checkoutPost
  rw [if_pos (by simpa using h)]

theorem checkoutPost_of_not_milestone {s : DBState} {code : Option String} {gen : String}
    (h : ¬ (s.orders.length + 1) % s.nth_order_value = 0) :
    checkoutPost s code gen =
      { cart := []
        orders := s.orders ++ [checkoutOrder s code]
        store_stats := checkoutStats s code
        current_discount_code := postDiscountCurrent s code
        nth_order_value := s.nth_order_value } := by
  unfold checkoutPost
  rw [if_neg (by simpa using h)]

theorem checkoutPost_cart (s : DBState) (code : Option String) (gen : String) :
    (checkoutPost s code gen).cart = [] := by
  by_cases h : (s.orders.length + 1) % s.nth_order_value = 0
  · rw [checkoutPost_of_milestone h]
  · rw [checkoutPost_of_not_milestone h]

theorem checkoutPost_orders (s : DBState) (code : Option String) (gen : String) :
    (checkoutPost s code gen).orders = s.orders ++ [checkoutOrder s code] := by
  by_cases h : (s.orders.length + 1) % s.nth_order_value = 0
  · rw [checkoutPost_of_milestone h]
  · rw [checkoutPost_of_not_milestone h]

theorem checkoutPost_nth (s : DBState) (code : Option String) (gen : String) :
    (checkoutPost s code gen).nth_order_value = s.nth_order_value := by
  by_cases h : (s.orders.length + 1) % s.nth_order_value = 0
  · rw [checkoutPost_of_milestone h]
  · rw [checkoutPost_of_not_milestone h]

theorem checkoutPost_current_of_milestone {s : DBState} {code : Option String}
    {gen : String} (h : (s.orders.length + 1) % s.nth_order_value = 0) :
    (checkoutPost s code gen).current_discount_code = some (newCode gen) := by
  rw [checkoutPost_of_milestone h]

theorem checkoutPost_codes_of_milestone {s : DBState} {code : Option String}
    {gen : String} (h : (s.orders.length + 1) % s.nth_order_value = 0) :
    (checkoutPost s code gen).store_stats.discount_codes_list =
      s.store_stats.discount_codes_list ++ [newCode gen] := by
  rw [checkoutPost_of_milestone h]
  rfl

theorem checkoutPost_current_of_not_milestone {s : DBState} {code : Option String}
    {gen : String} (h : ¬ (s.orders.length + 1) % s.nth_order_value = 0) :
    (checkoutPost s code gen).current_discount_code = postDiscountCurrent s code := by
  rw [checkoutPost_of_not_milestone h]

theorem checkoutPost_codes_of_not_milestone {s : DBState} {code : Option String}
    {gen : String} (h : ¬ (s.orders.length + 1) % s.nth_order_value = 0) :
    (checkoutPost s code gen).store_stats.discount_codes_list =
      s.store_stats.discount_codes_list := by
  rw [checkoutPost_of_not_milestone h]
  rfl

theorem checkoutPost_stats_core (s : DBState) (code : Option String) (gen : String) :
    (checkoutPost s code gen).store_stats.items_purchased_count =
      (checkoutStats s code).items_purchased_count ∧
    (checkoutPost s code gen).store_stats.total_purchase_amount =
      (checkoutStats s code).total_purchase_amount ∧
    (checkoutPost s code gen).store_stats.total_discount_amount =
      (checkoutStats s code).total_discount_amount := by
  by_cases h : (s.orders.length + 1) % s.nth_order_value = 0
  · rw [checkoutPost_of_milestone h]
    exact ⟨rfl, rfl, rfl⟩
  · rw [checkoutPost_of_not_milestone h]
    exact ⟨rfl, rfl, rfl⟩

theorem postDiscountCurrent_cases (s : DBState) (code : Option String) :
    postDiscountCurrent s code = none ∨
    postDiscountCurrent s code = s.current_discount_code := by
  unfold postDiscountCurrent
  by_cases h : codeMatches s code = true
  · rw [if_pos h]
    exact Or.inl rfl
  · rw [if_neg h]
    exact Or.inr rfl

theorem postDiscountCurrent_of_matched {s : DBState} {code : Option String}
    (h : codeMatches s code = true) : postDiscountCurrent s code = none := by
  unfold postDiscountCurrent
  rw [if_pos h]

theorem runOp_add (s : DBState) (item_id : String) (q : ℤ) :
    runOp s (Op.add item_id q) =
      if knownItem item_id then
        { s with
          cart := dictSet s.cart item_id ((dictGet s.cart item_id).getD 0 + q) }
      else s := by
  by_cases h : knownItem item_id = true
  · simp [runOp, add_to_cart, h]
  · simp [runOp, add_to_cart, h]

theorem runOp_add_fields (s : DBState) (i : String) (q : ℤ) :
    (runOp s (Op.add i q)).orders = s.orders ∧
    (runOp s (Op.add i q)).store_stats = s.store_stats ∧
    (runOp s (Op.add i q)).current_discount_code = s.current_discount_code ∧
    (runOp s (Op.add i q)).nth_order_value = s.nth_order_value := by
  rw [runOp_add]
  by_cases h : knownItem i = true
  · rw [if_pos h]
    exact ⟨rfl, rfl, rfl, rfl⟩
  · rw [if_neg h]
    exact ⟨rfl, rfl, rfl, rfl⟩

theorem runOp_checkout_empty {s : DBState} (code : Option String) (gen : String)
    (h : s.cart = []) : runOp s (Op.checkout code gen) = s := by
  simp only [runOp]
  rw [checkout_empty code gen h]

theorem runOp_checkout_nonempty {s : DBState} (code : Option String) (gen : String)
    (h : s.cart ≠ []) : runOp s (Op.checkout code gen) = checkoutPost s code gen := by
  simp only [runOp]
  rw [checkout_nonempty code gen h]

theorem runOps_nil (s : DBState) : runOps s [] = s := rfl

theorem runOps_cons (s : DBState) (op : Op) (ops : List Op) :
    runOps s (op :: ops) = runOps (runOp s op) ops := rfl

theorem dictGet_dictSet (cart : List (String × ℤ)) (k item : String) (v : ℤ) :
    dictGet (dictSet cart k v) item =
      if k == item then some v else dictGet cart item := by
  induction cart with
  | nil => simp [dictSet, dictGet]
  | cons p rest ih =>
    obtain ⟨k1, w⟩ := p
    by_cases h1 : k1 == k
    · have hk : k1 = k := by simpa using h1
      subst hk
      by_cases h2 : k1 == item
      · simp [dictSet, dictGet, h1, h2]
      · simp [dictSet, dictGet, h1, h2]
    · by_cases h2 : k1 == item
      · have hki : k1 = item := by simpa using h2
        have hne : ¬ k == item := by
          intro hk
          exact h1 (by simp_all)
        simp [dictSet, dictGet, h1, h2, hne]
      · simp [dictSet, dictGet, h1, h2, ih]

/-! ## Claim C2: quantity validation on add-to-cart -/

/-- Claim C2 counterexample: the code performs no quantity validation.  An
add-to-cart request for a known item with the non-positive quantity −5
succeeds (no `InvalidQuantityError` exists anywhere in the code) and stores
the non-positive quantity −5 in the cart. -/
theorem C2_counterexample :
    add_to_cart initDB "item_001" (-5) =
      Except.ok
        { cart := [("item_001", -5)]
          orders := []
          store_stats :=
            { items_purchased_count := 0
              total_purchase_amount := 0
              discount_codes_list := []
              total_discount_amount := 0 }
          current_discount_code := none
          nth_order_value := 3 } ∧
    dictGet [("item_001", (-5 : ℤ))] "item_001" = some (-5) ∧
    ¬ (0 : ℤ) < -5 := by
  refine ⟨by with_unfolding_all rfl, by with_unfolding_all decide, by decide⟩

/-- Claim C2 as amended: `add_to_cart` validates only the item id.  For a
known item it succeeds for every integer quantity, including zero and
negative ones, and adds it to the stored quantity; hence cart quantities are
not guaranteed to be positive. -/
theorem C2_amended (s : DBState) (item_id : String) (q : ℤ)
    (h : knownItem item_id = true) :
    add_to_cart s item_id q =
      Except.ok { s with
        cart := dictSet s.cart item_id ((dictGet s.cart item_id).getD 0 + q) } ∧
    dictGet (dictSet s.cart item_id ((dictGet s.cart item_id).getD 0 + q)) item_id =
      some ((dictGet s.cart item_id).getD 0 + q) := by
  constructor
  · unfold add_to_cart
    rw [if_pos h]
  · rw [dictGet_dictSet]
    simp

/-- Witness for `C2_amended` at the concrete quantity −5. -/
theorem C2_amended_witness :
    add_to_cart initDB "item_001" (-5) =
      Except.ok { initDB with
        cart := dictSet initDB.cart "item_001" ((dictGet initDB.cart "item_001").getD 0 + -5) } ∧
    dictGet (dictSet initDB.cart "item_001" ((dictGet initDB.cart "item_001").getD 0 + -5)) "item_001" =
      some ((dictGet initDB.cart "item_001").getD 0 + -5) :=
  C2_amended initDB "item_001" (-5) (by with_unfolding_all decide)

/-! ## Claim C4: checkout on an empty cart -/

/-- Claim C4: a checkout attempted on an empty cart fails with the
empty-cart error, raised before any mutation, so the whole state is
unchanged. -/
theorem C4_empty_cart (s : DBState) (code : Option String) (gen : String)
    (h : s.cart = []) :
    checkout s code gen = Except.error ApiError.emptyCart ∧
    runOp s (Op.checkout code gen) = s :=
  ⟨checkout_empty code gen h, runOp_checkout_empty code gen h⟩

/-- Witness for `C4_empty_cart` at the initial store. -/
theorem C4_empty_cart_witness :
    checkout initDB none "AB12" = Except.error ApiError.emptyCart ∧
    runOp initDB (Op.checkout none "AB12") = initDB :=
  C4_empty_cart initDB none "AB12" rfl

/-! ## Claim C8: mismatched or absent discount code -/

/-- Claim C8: a checkout on a non-empty cart whose submitted code is absent
or differs from the current code succeeds, produces an order with no
discount (`discount_applied = false`, `discount_amount = 0.00`), and the
discount-evaluation step leaves the current code unchanged (so outside a
milestone the post-state still carries it). -/
theorem C8_mismatch (s : DBState) (code : Option String) (gen : String)
    (h : s.cart ≠ [])
    (hm : code = none ∨ code ≠ s.current_discount_code) :
    checkout s code gen = Except.ok (checkoutPost s code gen, checkoutOrder s code) ∧
    (checkoutOrder s code).discount_applied = false ∧
    (checkoutOrder s code).discount_amount = 0 ∧
    postDiscountCurrent s code = s.current_discount_code ∧
    (¬ (s.orders.length + 1) % s.nth_order_value = 0 →
      (checkoutPost s code gen).current_discount_code = s.current_discount_code) := by
  have hcm : codeMatches s code = false := codeMatches_false_of_mismatch hm
  have hpd : postDiscountCurrent s code = s.current_discount_code := by
    unfold postDiscountCurrent
    rw [if_neg (by simp [hcm])]
  refine ⟨checkout_nonempty code gen h, ?_, ?_, hpd, ?_⟩
  · rw [discount_applied_eq, hcm]
  · show round2 (discountAmountOf s code) = 0
    unfold discountAmountOf
    rw [if_neg (by simp [hcm])]
    with_unfolding_all decide
  · intro hnm
    rw [checkoutPost_of_not_milestone hnm]
    exact hpd

/-- Witness for `C8_mismatch`: the active code is "SAVE10-AB12" but the
checkout submits "WRONG-CODE". -/
theorem C8_mismatch_witness :
    checkout demoState (some "WRONG-CODE") "CD34" =
      Except.ok (checkoutPost demoState (some "WRONG-CODE") "CD34",
                 checkoutOrder demoState (some "WRONG-CODE")) ∧
    (checkoutOrder demoState (some "WRONG-CODE")).discount_applied = false ∧
    (checkoutOrder demoState (some "WRONG-CODE")).discount_amount = 0 ∧
    postDiscountCurrent demoState (some "WRONG-CODE") = demoState.current_discount_code ∧
    (¬ (demoState.orders.length + 1) % demoState.nth_order_value = 0 →
      (checkoutPost demoState (some "WRONG-CODE") "CD34").current_discount_code =
        demoState.current_discount_code) :=
  C8_mismatch demoState (some "WRONG-CODE") "CD34" (by with_unfolding_all decide)
    (Or.inr (by with_unfolding_all decide))

/-! ## Claim C1: discount and total rounding -/

theorem fcheckout_empty {s : DBState} (code : Option String) (h : s.cart = []) :
    fcheckout s code = Except.error ApiError.emptyCart := by
  unfold fcheckout
  rw [if_pos (by simp [List.isEmpty_iff, h])]

theorem fcheckout_nonempty {s : DBState} (code : Option String) (h : s.cart ≠ []) :
    fcheckout s code = Except.ok (fcheckoutOrder s code) := by
  unfold fcheckout
  rw [if_neg (by simp [List.isEmpty_iff, h])]

theorem fcheckout_ok_iff {s : DBState} {code : Option String} {o : Order} :
    fcheckout s code = Except.ok o ↔ s.cart ≠ [] ∧ o = fcheckoutOrder s code := by
  by_cases h : s.cart = []
  · rw [fcheckout_empty code h]
    simp [h]
  · rw [fcheckout_nonempty code h]
    constructor
    · intro hh
      injection hh with h1
      exact ⟨h, h1.symm⟩
    · rintro ⟨-, rfl⟩
      rfl

/-! Evaluation lemmas for the binary64 arithmetic of the five-unit cart:
each pins one double operation to its exact rational value (the `mkRat`
fractions are the exact values of the doubles 19.99, 0.1,
99.94999999999999, 9.994999…, 89.954999…, 99.95, 9.99, 89.95,
89.96000000000000085 and 89.96). -/

theorem fl_price_eval : fl (1999/100) = mkRat 5626684784446013 281474976710656 := by
  apply Rat.ext
  · with_unfolding_all decide
  · with_unfolding_all decide

theorem fl_tenth_eval : fl (1/10) = mkRat 3602879701896397 36028797018963968 := by
  apply Rat.ext
  · with_unfolding_all decide
  · with_unfolding_all decide

theorem fmul_price5_eval :
    fmul (mkRat 5626684784446013 281474976710656) ((5 : ℤ) : ℚ) =
      mkRat 1758338995139379 17592186044416 := by
  apply Rat.ext
  · with_unfolding_all decide
  · with_unfolding_all decide

theorem fadd_zero_eval :
    fadd 0 (mkRat 1758338995139379 17592186044416) =
      mkRat 1758338995139379 17592186044416 := by
  apply Rat.ext
  · with_unfolding_all decide
  · with_unfolding_all decide

theorem fmul_tenth_eval :
    fmul (mkRat 1758338995139379 17592186044416)
      (mkRat 3602879701896397 36028797018963968) =
      mkRat 5626684784446013 562949953421312 := by
  apply Rat.ext
  · with_unfolding_all decide
  · with_unfolding_all decide

theorem fsub_discount_eval :
    fsub (mkRat 1758338995139379 17592186044416)
      (mkRat 5626684784446013 562949953421312) =
      mkRat 1582505095625441 17592186044416 := by
  apply Rat.ext
  · with_unfolding_all decide
  · with_unfolding_all decide

theorem pyRound2_subtotal_eval :
    pyRound2 (mkRat 1758338995139379 17592186044416) =
      mkRat 7033355980557517 70368744177664 := by
  apply Rat.ext
  · with_unfolding_all decide
  · with_unfolding_all decide

theorem pyRound2_discount_eval :
    pyRound2 (mkRat 5626684784446013 562949953421312) =
      mkRat 5623870034678907 562949953421312 := by
  apply Rat.ext
  · with_unfolding_all decide
  · with_unfolding_all decide

theorem pyRound2_total_eval :
    pyRound2 (mkRat 1582505095625441 17592186044416) =
      mkRat 6329668538780877 70368744177664 := by
  apply Rat.ext
  · with_unfolding_all decide
  · with_unfolding_all decide

theorem fsub_once_rounded_eval :
    fsub (mkRat 7033355980557517 70368744177664)
      (mkRat 5623870034678907 562949953421312) =
      mkRat 3165186113111327 35184372088832 := by
  apply Rat.ext
  · with_unfolding_all decide
  · with_unfolding_all decide

theorem pyRound2_once_rounded_eval :
    pyRound2 (mkRat 3165186113111327 35184372088832) =
      mkRat 6330372226222653 70368744177664 := by
  apply Rat.ext
  · with_unfolding_all decide
  · with_unfolding_all decide

theorem fl_9995_eval : fl (9995/100) = mkRat 7033355980557517 70368744177664 := by
  apply Rat.ext
  · with_unfolding_all decide
  · with_unfolding_all decide

theorem fl_999_eval : fl (999/100) = mkRat 5623870034678907 562949953421312 := by
  apply Rat.ext
  · with_unfolding_all decide
  · with_unfolding_all decide

theorem fl_8995_eval : fl (8995/100) = mkRat 6329668538780877 70368744177664 := by
  apply Rat.ext
  · with_unfolding_all decide
  · with_unfolding_all decide

theorem fl_8996_eval : fl (8996/100) = mkRat 6330372226222653 70368744177664 := by
  apply Rat.ext
  · with_unfolding_all decide
  · with_unfolding_all decide

theorem c1_matches : codeMatches c1State (some "SAVE10-AB12") = true := by
  with_unfolding_all decide

theorem c1_subtotal :
    fsubtotalOf c1State.cart = mkRat 1758338995139379 17592186044416 := by
  have e : fsubtotalOf c1State.cart = fadd 0 (fmul (fl (1999/100)) ((5 : ℤ) : ℚ)) := by
    with_unfolding_all rfl
  rw [e, fl_price_eval, fmul_price5_eval, fadd_zero_eval]

theorem c1_discount :
    fdiscountAmountOf c1State (some "SAVE10-AB12") =
      mkRat 5626684784446013 562949953421312 := by
  unfold fdiscountAmountOf
  rw [if_pos c1_matches, c1_subtotal, fl_tenth_eval, fmul_tenth_eval]

theorem c1_final :
    ffinalTotalOf c1State (some "SAVE10-AB12") =
      mkRat 1582505095625441 17592186044416 := by
  unfold ffinalTotalOf
  rw [if_pos c1_matches, c1_subtotal, c1_discount, fsub_discount_eval]

/-- Claim C1 counterexample, under bit-exact binary64 semantics: with five
units of `item_001` in the cart the float subtotal is 99.94999999999999,
the redeeming checkout stores `subtotal = 99.95`, `discount_amount = 9.99`
(the exact discount 9.994999… rounds down) and `total = 89.95`, whereas
rounding the once-rounded subtotal minus the once-rounded discount gives
`round(99.95 - 9.99, 2) = 89.96`.  The stored total is not computed from
the once-rounded subtotal and once-rounded discount. -/
theorem C1_counterexample :
    fcheckout c1State (some "SAVE10-AB12") =
      Except.ok (fcheckoutOrder c1State (some "SAVE10-AB12")) ∧
    (fcheckoutOrder c1State (some "SAVE10-AB12")).discount_applied = true ∧
    (fcheckoutOrder c1State (some "SAVE10-AB12")).subtotal = fl (9995/100) ∧
    (fcheckoutOrder c1State (some "SAVE10-AB12")).discount_amount = fl (999/100) ∧
    (fcheckoutOrder c1State (some "SAVE10-AB12")).total = fl (8995/100) ∧
    pyRound2 (fsub (fl (9995/100)) (fl (999/100))) = fl (8996/100) ∧
    ¬ fl ((8995 : ℚ)/100) = fl ((8996 : ℚ)/100) ∧
    ¬ (fcheckoutOrder c1State (some "SAVE10-AB12")).total =
        pyRound2 (fsub (fcheckoutOrder c1State (some "SAVE10-AB12")).subtotal
          (fcheckoutOrder c1State (some "SAVE10-AB12")).discount_amount) := by
  refine ⟨by with_unfolding_all rfl, by with_unfolding_all decide, ?_, ?_, ?_, ?_, ?_, ?_⟩
  · show pyRound2 (fsubtotalOf c1State.cart) = fl (9995/100)
    rw [c1_subtotal, pyRound2_subtotal_eval, fl_9995_eval]
  · show pyRound2 (fdiscountAmountOf c1State (some "SAVE10-AB12")) = fl (999/100)
    rw [c1_discount, pyRound2_discount_eval, fl_999_eval]
  · show pyRound2 (ffinalTotalOf c1State (some "SAVE10-AB12")) = fl (8995/100)
    rw [c1_final, pyRound2_total_eval, fl_8995_eval]
  · rw [fl_9995_eval, fl_999_eval, fsub_once_rounded_eval, pyRound2_once_rounded_eval,
      fl_8996_eval]
  · rw [fl_8995_eval, fl_8996_eval]
    intro h
    have h2 := congrArg Rat.num h
    revert h2
    with_unfolding_all decide
  · show ¬ pyRound2 (ffinalTotalOf c1State (some "SAVE10-AB12")) =
        pyRound2 (fsub (pyRound2 (fsubtotalOf c1State.cart))
          (pyRound2 (fdiscountAmountOf c1State (some "SAVE10-AB12"))))
    rw [c1_final, pyRound2_total_eval, c1_subtotal, pyRound2_subtotal_eval,
      c1_discount, pyRound2_discount_eval, fsub_once_rounded_eval,
      pyRound2_once_rounded_eval]
    intro h
    have h2 := congrArg Rat.num h
    revert h2
    with_unfolding_all decide

/-- Claim C1 as amended: under the program's binary64 arithmetic, a
checkout that applies the discount stores
`discount_amount = round(subtotal * 0.10, 2)` and
`subtotal = round(subtotal, 2)`, but the rounding happens only when the
order record is built: the stored `total` is
`round(subtotal - subtotal * 0.10, 2)`, computed from the unrounded float
discount, which can differ by a cent from subtracting the once-rounded
values and re-rounding. -/
theorem C1_amended (s : DBState) (code : Option String) (o : Order)
    (hok : fcheckout s code = Except.ok o)
    (happ : o.discount_applied = true) :
    o.discount_amount = pyRound2 (fmul (fsubtotalOf s.cart) (fl (1/10))) ∧
    o.subtotal = pyRound2 (fsubtotalOf s.cart) ∧
    o.total = pyRound2 (fsub (fsubtotalOf s.cart)
      (fmul (fsubtotalOf s.cart) (fl (1/10)))) := by
  obtain ⟨hne, rfl⟩ := fcheckout_ok_iff.mp hok
  have hm : codeMatches s code = true := happ
  refine ⟨?_, rfl, ?_⟩
  · show pyRound2 (fdiscountAmountOf s code) = _
    unfold fdiscountAmountOf
    rw [if_pos hm]
  · show pyRound2 (ffinalTotalOf s code) = _
    unfold ffinalTotalOf fdiscountAmountOf
    rw [if_pos hm, if_pos hm]

/-- Witness for `C1_amended` at the five-unit cart `c1State`. -/
theorem C1_amended_witness :
    (fcheckoutOrder c1State (some "SAVE10-AB12")).discount_amount =
      pyRound2 (fmul (fsubtotalOf c1State.cart) (fl (1/10))) ∧
    (fcheckoutOrder c1State (some "SAVE10-AB12")).subtotal =
      pyRound2 (fsubtotalOf c1State.cart) ∧
    (fcheckoutOrder c1State (some "SAVE10-AB12")).total =
      pyRound2 (fsub (fsubtotalOf c1State.cart)
        (fmul (fsubtotalOf c1State.cart) (fl (1/10)))) :=
  C1_amended c1State (some "SAVE10-AB12")
    (fcheckoutOrder c1State (some "SAVE10-AB12"))
    (by with_unfolding_all rfl) (by with_unfolding_all decide)

/-! ## Claim C3: statistics accumulate the unrounded amounts -/

/-- Claim C3 counterexample: a discounted checkout of one unit of `item_001`
(subtotal 19.99, unrounded discount 1.999, unrounded final total 17.991)
stores `discount_amount = 2.00` and `total = 17.99` in the order, but the
statistics are increased by the unrounded locals: `total_discount_amount`
becomes 1.999 ≠ 2.00 and `total_purchase_amount` becomes 17.991 ≠ 17.99.
The statistics do not add the order's stored rounded fields. -/
theorem C3_counterexample :
    checkout demoState (some "SAVE10-AB12") "CD34" =
      Except.ok (checkoutPost demoState (some "SAVE10-AB12") "CD34",
                 checkoutOrder demoState (some "SAVE10-AB12")) ∧
    (checkoutPost demoState (some "SAVE10-AB12") "CD34").store_stats.total_discount_amount =
      1999/1000 ∧
    (checkoutOrder demoState (some "SAVE10-AB12")).discount_amount = 2 ∧
    ¬ ((1999 : ℚ)/1000) = 2 ∧
    (checkoutPost demoState (some "SAVE10-AB12") "CD34").store_stats.total_purchase_amount =
      17991/1000 ∧
    (checkoutOrder demoState (some "SAVE10-AB12")).total = 1799/100 ∧
    ¬ ((17991 : ℚ)/1000) = 1799/100 := by
  refine ⟨by with_unfolding_all rfl, ?_, by with_unfolding_all decide,
    by with_unfolding_all decide, ?_, by with_unfolding_all decide,
    by with_unfolding_all decide⟩
  · rw [(checkoutPost_stats_core demoState (some "SAVE10-AB12") "CD34").2.2,
      checkoutStats_discount]
    with_unfolding_all decide
  · rw [(checkoutPost_stats_core demoState (some "SAVE10-AB12") "CD34").2.1,
      checkoutStats_purchase]
    simp [demoState, finalTotalOf, discountAmountOf, subtotalOf, codeMatches,
      productPrice?, PRODUCTS, List.find?]
    norm_num

/-- Claim C3 as amended: each completed checkout adds `items_in_order` to
`items_purchased_count`, but adds the *unrounded* final total
(`subtotal − subtotal * 0.10` on a discounted checkout) to
`total_purchase_amount` and, when the discount applied, the *unrounded*
discount `subtotal * 0.10` to `total_discount_amount`; the order's stored
`total` and `discount_amount` fields are the rounded versions of those same
quantities. -/
theorem C3_amended (s : DBState) (code : Option String) (gen : String)
    (s1 : DBState) (o : Order)
    (hok : checkout s code gen = Except.ok (s1, o)) :
    s1.store_stats.items_purchased_count =
      s.store_stats.items_purchased_count + itemsInOrder s.cart ∧
    s1.store_stats.total_purchase_amount =
      s.store_stats.total_purchase_amount + finalTotalOf s code ∧
    s1.store_stats.total_discount_amount =
      (if o.discount_applied = true then
        s.store_stats.total_discount_amount + discountAmountOf s code
      else s.store_stats.total_discount_amount) ∧
    o.total = round2 (finalTotalOf s code) ∧
    o.discount_amount = round2 (discountAmountOf s code) := by
  obtain ⟨hne, rfl, rfl⟩ := checkout_ok_iff.mp hok
  obtain ⟨h1, h2, h3⟩ := checkoutPost_stats_core s code gen
  refine ⟨?_, ?_, ?_, rfl, rfl⟩
  · rw [h1, checkoutStats_items]
  · rw [h2, checkoutStats_purchase]
  · rw [h3, checkoutStats_discount, discount_applied_eq]

/-- Witness for `C3_amended` at the discounted one-item checkout. -/
theorem C3_amended_witness :
    (checkoutPost demoState (some "SAVE10-AB12") "CD34").store_stats.items_purchased_count =
      demoState.store_stats.items_purchased_count + itemsInOrder demoState.cart ∧
    (checkoutPost demoState (some "SAVE10-AB12") "CD34").store_stats.total_purchase_amount =
      demoState.store_stats.total_purchase_amount +
        finalTotalOf demoState (some "SAVE10-AB12") ∧
    (checkoutPost demoState (some "SAVE10-AB12") "CD34").store_stats.total_discount_amount =
      (if (checkoutOrder demoState (some "SAVE10-AB12")).discount_applied = true then
        demoState.store_stats.total_discount_amount +
          discountAmountOf demoState (some "SAVE10-AB12")
      else demoState.store_stats.total_discount_amount) ∧
    (checkoutOrder demoState (some "SAVE10-AB12")).total =
      round2 (finalTotalOf demoState (some "SAVE10-AB12")) ∧
    (checkoutOrder demoState (some "SAVE10-AB12")).discount_amount =
      round2 (discountAmountOf demoState (some "SAVE10-AB12")) :=
  C3_amended demoState (some "SAVE10-AB12") "CD34"
    (checkoutPost demoState (some "SAVE10-AB12") "CD34")
    (checkoutOrder demoState (some "SAVE10-AB12"))
    (by with_unfolding_all rfl)

/-! ## Claim C6: milestone code issuance -/

/-- Claim C6: every successful checkout clears the cart, grows the order
count by one, and then, exactly when the new count is a multiple of the
configured threshold, appends exactly one new code to `discount_codes_list`
and sets it current; a non-milestone checkout appends nothing and leaves the
current code as the discount-evaluation step left it. -/
theorem C6_milestone (s : DBState) (code : Option String) (gen : String)
    (s1 : DBState) (o : Order)
    (hok : checkout s code gen = Except.ok (s1, o)) :
    s1.cart = [] ∧
    s1.orders.length = s.orders.length + 1 ∧
    (if s1.orders.length % s.nth_order_value = 0 then
        s1.store_stats.discount_codes_list =
          s.store_stats.discount_codes_list ++ [newCode gen] ∧
        s1.current_discount_code = some (newCode gen)
      else
        s1.store_stats.discount_codes_list = s.store_stats.discount_codes_list ∧
        s1.current_discount_code = postDiscountCurrent s code) := by
  obtain ⟨hne, rfl, -⟩ := checkout_ok_iff.mp hok
  have hlen : (checkoutPost s code gen).orders.length = s.orders.length + 1 := by
    rw [checkoutPost_orders]
    simp
  refine ⟨checkoutPost_cart s code gen, hlen, ?_⟩
  rw [hlen]
  by_cases h : (s.orders.length + 1) % s.nth_order_value = 0
  · rw [if_pos h]
    exact ⟨checkoutPost_codes_of_milestone h, checkoutPost_current_of_milestone h⟩
  · rw [if_neg h]
    exact ⟨checkoutPost_codes_of_not_milestone h, checkoutPost_current_of_not_milestone h⟩

/-- Witness for `C6_milestone` at a first (non-milestone) checkout. -/
theorem C6_milestone_witness :
    (checkoutPost demoState none "AB12").cart = [] ∧
    (checkoutPost demoState none "AB12").orders.length = demoState.orders.length + 1 ∧
    (if (checkoutPost demoState none "AB12").orders.length % demoState.nth_order_value = 0 then
        (checkoutPost demoState none "AB12").store_stats.discount_codes_list =
          demoState.store_stats.discount_codes_list ++ [newCode "AB12"] ∧
        (checkoutPost demoState none "AB12").current_discount_code = some (newCode "AB12")
      else
        (checkoutPost demoState none "AB12").store_stats.discount_codes_list =
          demoState.store_stats.discount_codes_list ∧
        (checkoutPost demoState none "AB12").current_discount_code =
          postDiscountCurrent demoState none) :=
  C6_milestone demoState none "AB12" (checkoutPost demoState none "AB12")
    (checkoutOrder demoState none) (by with_unfolding_all rfl)

/-! ## Claim C5: a discount code is consumed at most once -/

theorem checkoutPost_current_cases (s : DBState) (code : Option String) (gen : String) :
    (checkoutPost s code gen).current_discount_code = some (newCode gen) ∨
    (checkoutPost s code gen).current_discount_code = postDiscountCurrent s code := by
  by_cases h : (s.orders.length + 1) % s.nth_order_value = 0
  · exact Or.inl (checkoutPost_current_of_milestone h)
  · exact Or.inr (checkoutPost_current_of_not_milestone h)

theorem runOp_current_ne {s : DBState} {c : String} {op : Op}
    (h : s.current_discount_code ≠ some c) (hop : cannotIssue c op = true) :
    (runOp s op).current_discount_code ≠ some c := by
  cases op with
  | add i q =>
    rw [(runOp_add_fields s i q).2.2.1]
    exact h
  | checkout code gen =>
    have hgen : newCode gen ≠ c := by
      simp only [cannotIssue, Bool.not_eq_true', beq_eq_false_iff_ne, ne_eq] at hop
      exact hop
    by_cases hc : s.cart = []
    · rw [runOp_checkout_empty code gen hc]
      exact h
    · rw [runOp_checkout_nonempty code gen hc]
      rcases checkoutPost_current_cases s code gen with he | he
      · rw [he]
        intro hh
        exact hgen (Option.some.inj hh)
      · rw [he]
        rcases postDiscountCurrent_cases s code with hp | hp
        · rw [hp]
          simp
        · rw [hp]
          exact h

theorem opApplies_false {s : DBState} {c : String} (op : Op)
    (h : s.current_discount_code ≠ some c) : opApplies s op c = false := by
  cases op with
  | add i q => rfl
  | checkout code gen =>
    cases code with
    | none => rfl
    | some c1 =>
      simp only [opApplies]
      by_cases hc1 : c1 = c
      · subst hc1
        cases hch : checkout s (some c1) gen with
        | error e => simp [hch]
        | ok p =>
          obtain ⟨s2, o⟩ := p
          obtain ⟨hne, hs2, ho⟩ := checkout_ok_iff.mp hch
          have hcm : codeMatches s (some c1) = false := by
            by_contra hb
            rw [Bool.not_eq_false] at hb
            exact h (codeMatches_some_iff.mp hb).2
          simp [ho, discount_applied_eq, hcm]
      · have : (c1 == c) = false := by
          simpa using hc1
        simp [this]

theorem appliesWith_false {c : String} :
    ∀ (ops : List Op) (s : DBState), s.current_discount_code ≠ some c →
      ops.all (cannotIssue c) = true → appliesWith c s ops = false := by
  intro ops
  induction ops with
  | nil =>
    intro s _ _
    rfl
  | cons op rest ih =>
    intro s h hall
    rw [List.all_cons, Bool.and_eq_true] at hall
    have e : appliesWith c s (op :: rest) =
        (opApplies s op c || appliesWith c (runOp s op) rest) := rfl
    rw [e, opApplies_false op h, ih (runOp s op) (runOp_current_ne h hall.1) hall.2]
    rfl

/-- Claim C5: a checkout that applies the discount must have matched the
pre-state's current code, and it clears that code in the same step; as long
as no later request can re-issue the exact same string (its oracle suffix
never spells it), no later checkout applies a discount with that string
again. -/
theorem C5_no_reuse (s : DBState) (c gen : String) (s1 : DBState) (o : Order)
    (ops : List Op)
    (hok : checkout s (some c) gen = Except.ok (s1, o))
    (happ : o.discount_applied = true)
    (hgen : newCode gen ≠ c)
    (hops : ops.all (cannotIssue c) = true) :
    s1.current_discount_code ≠ some c ∧ appliesWith c s1 ops = false := by
  obtain ⟨hne, rfl, rfl⟩ := checkout_ok_iff.mp hok
  have hm : codeMatches s (some c) = true := by
    rw [← discount_applied_eq]
    exact happ
  have hcur : (checkoutPost s (some c) gen).current_discount_code ≠ some c := by
    rcases checkoutPost_current_cases s (some c) gen with he | he
    · rw [he]
      intro hh
      exact hgen (Option.some.inj hh)
    · rw [he, postDiscountCurrent_of_matched hm]
      simp
  exact ⟨hcur, appliesWith_false ops _ hcur hops⟩

/-- Witness for `C5_no_reuse`: "SAVE10-AB12" is consumed, and a later
add-to-cart followed by a checkout that re-submits the same string applies
no discount. -/
theorem C5_no_reuse_witness :
    (checkoutPost demoState (some "SAVE10-AB12") "CD34").current_discount_code ≠
      some "SAVE10-AB12" ∧
    appliesWith "SAVE10-AB12" (checkoutPost demoState (some "SAVE10-AB12") "CD34")
      [Op.add "item_001" 1, Op.checkout (some "SAVE10-AB12") "EF56"] = false :=
  C5_no_reuse demoState "SAVE10-AB12" "CD34"
    (checkoutPost demoState (some "SAVE10-AB12") "CD34")
    (checkoutOrder demoState (some "SAVE10-AB12"))
    [Op.add "item_001" 1, Op.checkout (some "SAVE10-AB12") "EF56"]
    (by with_unfolding_all rfl) (by with_unfolding_all decide)
    (by with_unfolding_all decide) (by with_unfolding_all decide)

/-! ## Claim C7: order ids are dense and 1-based -/

theorem succCheckouts_nil (s : DBState) : succCheckouts s [] = 0 := rfl

theorem succCheckouts_cons_add (s : DBState) (i : String) (q : ℤ) (rest : List Op) :
    succCheckouts s (Op.add i q :: rest) =
      succCheckouts (runOp s (Op.add i q)) rest := by
  simp [succCheckouts]

theorem succCheckouts_cons_checkout_empty {s : DBState} (code : Option String)
    (gen : String) (rest : List Op) (h : s.cart = []) :
    succCheckouts s (Op.checkout code gen :: rest) = succCheckouts s rest := by
  have e : succCheckouts s (Op.checkout code gen :: rest) =
      (match checkout s code gen with
       | Except.ok _ => 1
       | Except.error _ => 0) + succCheckouts (runOp s (Op.checkout code gen)) rest := rfl
  rw [e, checkout_empty code gen h, runOp_checkout_empty code gen h]
  simp

theorem succCheckouts_cons_checkout_nonempty {s : DBState} (code : Option String)
    (gen : String) (rest : List Op) (h : s.cart ≠ []) :
    succCheckouts s (Op.checkout code gen :: rest) =
      1 + succCheckouts (checkoutPost s code gen) rest := by
  have e : succCheckouts s (Op.checkout code gen :: rest) =
      (match checkout s code gen with
       | Except.ok _ => 1
       | Except.error _ => 0) + succCheckouts (runOp s (Op.checkout code gen)) rest := rfl
  rw [e, checkout_nonempty code gen h, runOp_checkout_nonempty code gen h]

theorem orders_ids_aux :
    ∀ (ops : List Op) (s : DBState),
      s.orders.map Order.order_id = List.range' 1 s.orders.length →
      (runOps s ops).orders.map Order.order_id =
        List.range' 1 (runOps s ops).orders.length ∧
      (runOps s ops).orders.length = s.orders.length + succCheckouts s ops := by
  intro ops
  induction ops with
  | nil =>
    intro s h
    exact ⟨h, by simp [runOps_nil, succCheckouts_nil]⟩
  | cons op rest ih =>
    intro s h
    rw [runOps_cons]
    cases op with
    | add i q =>
      obtain ⟨ho, -, -, -⟩ := runOp_add_fields s i q
      have hrec := ih (runOp s (Op.add i q)) (by rw [ho]; exact h)
      refine ⟨hrec.1, ?_⟩
      rw [hrec.2, ho, succCheckouts_cons_add]
    | checkout code gen =>
      by_cases hc : s.cart = []
      · rw [runOp_checkout_empty code gen hc]
        have hrec := ih s h
        refine ⟨hrec.1, ?_⟩
        rw [hrec.2, succCheckouts_cons_checkout_empty code gen rest hc]
      · rw [runOp_checkout_nonempty code gen hc]
        have horders : (checkoutPost s code gen).orders =
            s.orders ++ [checkoutOrder s code] := checkoutPost_orders s code gen
        have hlen : (checkoutPost s code gen).orders.length = s.orders.length + 1 := by
          rw [horders]
          simp
        have hmap : (checkoutPost s code gen).orders.map Order.order_id =
            List.range' 1 (checkoutPost s code gen).orders.length := by
          rw [horders, List.map_append, h]
          have hr : List.range' 1 (s.orders.length + 1) =
              List.range' 1 s.orders.length ++ [1 + s.orders.length] := by
            simpa using @List.range'_concat 1 1 s.orders.length
          rw [horders] at hlen
          rw [hlen, hr]
          have : (checkoutOrder s code).order_id = s.orders.length + 1 := rfl
          simp [this, Nat.add_comm]
        have hrec := ih (checkoutPost s code gen) hmap
        refine ⟨hrec.1, ?_⟩
        rw [hrec.2, hlen, succCheckouts_cons_checkout_nonempty code gen rest hc]
        omega

/-- Claim C7: after any request sequence containing K successful checkouts,
the order list holds exactly K orders whose `order_id`s are exactly
1, 2, ..., K in append order. -/
theorem C7_order_ids (ops : List Op) :
    (runOps initDB ops).orders.map Order.order_id =
      List.range' 1 (succCheckouts initDB ops) ∧
    (runOps initDB ops).orders.length = succCheckouts initDB ops := by
  have h := orders_ids_aux ops initDB rfl
  have hlen : (runOps initDB ops).orders.length = succCheckouts initDB ops := by
    have h2 := h.2
    simpa [initDB] using h2
  exact ⟨by rw [← hlen]; exact h.1, hlen⟩

/-! ## Claim C9: cart quantities are the sums of the accepted adds -/

theorem runAdds_nil (s : DBState) : runAdds s [] = s := rfl

theorem runAdds_cons (s : DBState) (a : String × ℤ) (rest : List (String × ℤ)) :
    runAdds s (a :: rest) = runAdds (runOp s (Op.add a.1 a.2)) rest := rfl

theorem runAdds_dictGet :
    ∀ (adds : List (String × ℤ)) (s : DBState) (item : String),
      adds.all (fun a => knownItem a.1) = true →
      dictGet (runAdds s adds).cart item =
        (if (adds.filter (fun a => a.1 == item)).isEmpty then dictGet s.cart item
         else some ((dictGet s.cart item).getD 0 +
           ((adds.filter (fun a => a.1 == item)).map (fun a => a.2)).sum)) := by
  intro adds
  induction adds with
  | nil =>
    intro s item _
    simp [runAdds_nil]
  | cons a rest ih =>
    intro s item hall
    rw [List.all_cons, Bool.and_eq_true] at hall
    obtain ⟨k, q⟩ := a
    rw [runAdds_cons, ih (runOp s (Op.add k q)) item hall.2]
    have hcart : (runOp s (Op.add k q)).cart =
        dictSet s.cart k ((dictGet s.cart k).getD 0 + q) := by
      rw [runOp_add, if_pos hall.1]
    rw [hcart, dictGet_dictSet]
    by_cases hk1 : k = item
    · subst hk1
      have hk : (k == k) = true := by simp
      rw [if_pos hk]
      have hf : ((k, q) :: rest).filter (fun a => a.1 == k) =
          (k, q) :: rest.filter (fun a => a.1 == k) := by
        simp [List.filter_cons]
      rw [hf]
      cases hre : rest.filter (fun a => a.1 == k) with
      | nil => simp
      | cons b l => simp [Int.add_assoc]
    · have hkf : (k == item) = false := by
        simpa using hk1
      rw [if_neg (show ¬ (k == item) = true from by simp [hkf])]
      have hf : ((k, q) :: rest).filter (fun a => a.1 == item) =
          rest.filter (fun a => a.1 == item) := by
        simp [List.filter_cons, hkf]
      rw [hf]

/-- Claim C9: starting from a cleared cart, after any sequence of accepted
add-to-cart requests the stored quantity of an item is exactly the sum of
the quantities added for that item, and an item never added is absent from
the cart. -/
theorem C9_cart_sum (s : DBState) (adds : List (String × ℤ)) (item : String)
    (hempty : s.cart = [])
    (hall : adds.all (fun a => knownItem a.1) = true) :
    dictGet (runAdds s adds).cart item =
      (if (adds.filter (fun a => a.1 == item)).isEmpty then none
       else some (((adds.filter (fun a => a.1 == item)).map (fun a => a.2)).sum)) := by
  rw [runAdds_dictGet adds s item hall, hempty]
  by_cases h : ((adds.filter (fun a => a.1 == item)).isEmpty) = true
  · rw [if_pos h, if_pos h]
    rfl
  · rw [if_neg h, if_neg h]
    simp [dictGet]

/-- Witness for `C9_cart_sum`: adds of 2 and 1 of `item_001` with an
interleaved add of `item_002` leave `item_001` at quantity 3. -/
theorem C9_cart_sum_witness :
    dictGet (runAdds initDB
        [("item_001", 2), ("item_002", 3), ("item_001", 1)]).cart "item_001" =
      some 3 := by
  have h := C9_cart_sum initDB [("item_001", 2), ("item_002", 3), ("item_001", 1)]
    "item_001" rfl (by with_unfolding_all decide)
  rw [h]
  with_unfolding_all decide

/-! ## Claim C10: the current code is the last issued one -/

theorem codesInv_initDB : codesInv initDB := by
  intro c h
  simp [initDB] at h

theorem codesInv_runOp {s : DBState} (h : codesInv s) (op : Op) :
    codesInv (runOp s op) := by
  cases op with
  | add i q =>
    intro c hc
    obtain ⟨-, hs, hcur, -⟩ := runOp_add_fields s i q
    rw [hs]
    apply h
    rw [← hcur]
    exact hc
  | checkout code gen =>
    by_cases hc : s.cart = []
    · rw [runOp_checkout_empty code gen hc]
      exact h
    · rw [runOp_checkout_nonempty code gen hc]
      intro c hcur
      by_cases hm : (s.orders.length + 1) % s.nth_order_value = 0
      · rw [checkoutPost_current_of_milestone hm] at hcur
        obtain rfl : newCode gen = c := Option.some.inj hcur
        rw [checkoutPost_codes_of_milestone hm]
        exact List.getLast?_concat _
      · rw [checkoutPost_current_of_not_milestone hm] at hcur
        rw [checkoutPost_codes_of_not_milestone hm]
        rcases postDiscountCurrent_cases s code with hp | hp
        · rw [hp] at hcur
          simp at hcur
        · rw [hp] at hcur
          exact h c hcur

theorem codesInv_runOps (ops : List Op) (s : DBState) (h : codesInv s) :
    codesInv (runOps s ops) := by
  induction ops generalizing s with
  | nil => exact h
  | cons op rest ih =>
    rw [runOps_cons]
    exact ih (runOp s op) (codesInv_runOp h op)

/-- Claim C10: in every state reachable from the initial store, whenever a
discount code is current it is the most recently appended element of
`discount_codes_list` (hence a member of it); and a redeeming non-milestone
checkout only clears the current code, leaving the list untouched. -/
theorem C10_current_is_last :
    (∀ (ops : List Op) (c : String),
        (runOps initDB ops).current_discount_code = some c →
        (runOps initDB ops).store_stats.discount_codes_list.getLast? = some c ∧
        c ∈ (runOps initDB ops).store_stats.discount_codes_list) ∧
    (∀ (s : DBState) (code : Option String) (gen : String),
        codeMatches s code = true →
        ¬ (s.orders.length + 1) % s.nth_order_value = 0 →
        (checkoutPost s code gen).current_discount_code = none ∧
        (checkoutPost s code gen).store_stats.discount_codes_list =
          s.store_stats.discount_codes_list) := by
  constructor
  · intro ops c hc
    have hl := codesInv_runOps ops initDB codesInv_initDB c hc
    refine ⟨hl, ?_⟩
    have hmem := List.mem_getLast?_eq_getLast
      (l := (runOps initDB ops).store_stats.discount_codes_list) (x := c)
      (by rw [hl]; exact Option.mem_some_self c)
    obtain ⟨hne, hh⟩ := hmem
    rw [hh]
    exact List.getLast_mem hne
  · intro s code gen hm hnm
    refine ⟨?_, checkoutPost_codes_of_not_milestone hnm⟩
    rw [checkoutPost_current_of_not_milestone hnm, postDiscountCurrent_of_matched hm]

theorem issued1_eq : runOp initDB (Op.add "item_001" 1) = issued1 := by
  with_unfolding_all rfl

theorem issued2_eq : runOp issued1 (Op.checkout none "AB12") = issued2 := by
  with_unfolding_all rfl

theorem issued3_eq : runOp issued2 (Op.add "item_001" 1) = issued3 := by
  with_unfolding_all rfl

theorem issued4_eq : runOp issued3 (Op.checkout none "AB12") = issued4 := by
  with_unfolding_all rfl

theorem issued5_eq : runOp issued4 (Op.add "item_001" 1) = issued5 := by
  with_unfolding_all rfl

theorem issued6_eq : runOp issued5 (Op.checkout none "AB12") = issued6 := by
  with_unfolding_all rfl

theorem issueOps_run : runOps initDB issueOps = issued6 := by
  have e : issueOps =
      [Op.add "item_001" 1, Op.checkout none "AB12",
       Op.add "item_001" 1, Op.checkout none "AB12",
       Op.add "item_001" 1, Op.checkout none "AB12"] := rfl
  rw [e, runOps_cons, issued1_eq, runOps_cons, issued2_eq, runOps_cons, issued3_eq,
    runOps_cons, issued4_eq, runOps_cons, issued5_eq, runOps_cons, issued6_eq,
    runOps_nil]

/-- Witness for `C10_current_is_last`: after the three checkouts of
`issueOps` the current code "SAVE10-AB12" is the last (and only) element of
the list, and a matched non-milestone redemption clears the current code
without touching the list. -/
theorem C10_current_is_last_witness :
    ((runOps initDB issueOps).store_stats.discount_codes_list.getLast? =
        some "SAVE10-AB12" ∧
      "SAVE10-AB12" ∈ (runOps initDB issueOps).store_stats.discount_codes_list) ∧
    ((checkoutPost demoState (some "SAVE10-AB12") "CD34").current_discount_code = none ∧
      (checkoutPost demoState (some "SAVE10-AB12") "CD34").store_stats.discount_codes_list =
        demoState.store_stats.discount_codes_list) :=
  ⟨C10_current_is_last.1 issueOps "SAVE10-AB12"
      (by rw [issueOps_run]; with_unfolding_all rfl),
   C10_current_is_last.2 demoState (some "SAVE10-AB12") "CD34"
      (by with_unfolding_all decide) (by decide)⟩

end ProEcommerce
